import Mathlib

/-!
Verification of the qrzrtlogger real-time QSO logging pipeline
(`qrzrtlogger.py`), shallowly embedded in Lean 4.

Text payloads are modelled as `List Char`.  The pipeline state (run flags
and the bounded dispatch queue) is modelled explicitly, and the listener
threads and the main loop are modelled as step functions over that state,
with the external monitor/uploader results supplied as inputs and the
operator-visible prints recorded as event lists.
-/

namespace Qrzrtlogger

/-! ## Record normalizer (`format_record`) -/

/-- Modelled from the spec: `make_utf8` comes from the external `strutils`
module (ab3gy-pyutils, not in this repository); per spec step (a) it forces
the payload to a UTF-8 representation.  On text that is already decoded
(which is what `List Char` represents) it is the identity. -/
def make_utf8 (s : List Char) : List Char := s

/-- Embedding of Python `str.replace(pat, repl)` for a one-character
pattern and one-character replacement: every occurrence of the character
is replaced, which for single-character patterns is a character map. -/
def replace1 (pat repl : Char) (s : List Char) : List Char :=
  s.map (fun ch => if ch = pat then repl else ch)

/-- Does the list start with a case-insensitive occurrence of the
end-of-header marker `<EOH>` (regex `\<EOH\>` with `re.IGNORECASE`)? -/
def matchesEOHAt : List Char → Bool
  | a :: b :: c :: d :: e :: _ =>
      a = '<' && (b = 'E' || b = 'e') && (c = 'O' || c = 'o') &&
      (d = 'H' || d = 'h') && e = '>'
  | _ => false

/-- Embedding of `adif_eoh_re.search(rec)`: index one past the first case-insensitive
occurrence of `<EOH>` (the match object's `m.end()`), or `none` when the
marker is absent. -/
def findEOHEnd : List Char → Option Nat
  | [] => none
  | c :: rest =>
      if matchesEOHAt (c :: rest) then some 5
      else (findEOHEnd rest).map (· + 1)

/-- Whitespace stripped by Python `str.strip()`, restricted to the ASCII
whitespace characters (the Unicode-only space characters do not occur in
any payload considered here). -/
def pyIsSpace (c : Char) : Bool :=
  c = ' ' || c = '\t' || c = '\n' || c = '\r' || c = '\x0b' || c = '\x0c'

/-- Embedding of Python `str.strip()`: drop leading and trailing
whitespace. -/
def pystrip (s : List Char) : List Char :=
  ((s.dropWhile pyIsSpace).reverse.dropWhile pyIsSpace).reverse

/-- Embedding of `format_record` (qrzrtlogger.py lines 104-115):
force UTF-8, replace each LF and each CR with a space, drop everything up
to and including the first case-insensitive `<EOH>` marker when present,
then strip outer whitespace. -/
def format_record (adif_in : List Char) : List Char :=
  let rec1 := replace1 '\r' ' ' (replace1 '\n' ' ' (make_utf8 adif_in))
  let rec2 :=
    match findEOHEnd rec1 with
    | some idx => rec1.drop idx
    | none => rec1
  pystrip rec2

/-- Spec 4.1 step (b), written from the spec's words: replace every
line-feed and carriage-return character with a single space, in one pass. -/
def collapse_linebreaks (s : List Char) : List Char :=
  s.map (fun ch => if ch = '\n' || ch = '\r' then ' ' else ch)

/-! ## Dispatch queue (`qso_queue = queue.Queue(maxsize=20)`) -/

/-- The fixed capacity of the dispatch queue (qrzrtlogger.py line 72). -/
def queue_maxsize : Nat := 20

/-- Embedding of `qso_queue.full()`. -/
def qfull (q : List (List Char)) : Bool := queue_maxsize ≤ q.length

/-- A listener's guarded enqueue: the `full()` check followed by
`put(..., block=False)`.  Returns the new queue and whether the record was
accepted; a full queue rejects the record without blocking and without
changing the queue contents. -/
def try_enqueue (q : List (List Char)) (x : List Char) :
    List (List Char) × Bool :=
  if qfull q then (q, false) else (q ++ [x], true)

/-- Embedding of `qso_queue.get(block=False)` preceded by the main loop's `empty()`
check: pops the oldest record, or `none` on an empty queue. -/
def try_dequeue (q : List (List Char)) :
    Option (List Char × List (List Char)) :=
  match q with
  | [] => none
  | x :: rest => some (x, rest)

/-- Run a whole sequence of guarded enqueues. -/
def enqueueAll (q : List (List Char)) (xs : List (List Char)) :
    List (List Char) :=
  xs.foldl (fun acc x => (try_enqueue acc x).1) q

/-- Dequeue up to `fuel` records, in the order the queue yields them. -/
def drainQueue (fuel : Nat) (q : List (List Char)) : List (List Char) :=
  match fuel with
  | 0 => []
  | fuel' + 1 =>
      match try_dequeue q with
      | none => []
      | some (x, rest) => x :: drainQueue fuel' rest

/-! ## Listener threads -/

/-- The shared mutable state: the two listener run flags and the dispatch
queue (qrzrtlogger.py lines 68-72). -/
structure PState where
  n1mm_running : Bool
  wsjtx_running : Bool
  qso_queue : List (List Char)
  deriving DecidableEq, Repr

/-- Operator-visible timestamped prints emitted by the listener threads. -/
inductive LogEvent where
  | n1mmQueued
  | n1mmDropped
  | wsjtxQueued
  | wsjtxDropped
  deriving DecidableEq, Repr

/-- The sentinel value the N1MM monitor stores on a receive timeout
(`n1mm_monitor.message != 'timeout'`, qrzrtlogger.py line 128). -/
def timeoutSentinel : List Char := ['t', 'i', 'm', 'e', 'o', 'u', 't']

/-- One iteration of the `n1mm_thread` loop body (qrzrtlogger.py lines
126-135).  The monitor interaction is supplied as input: `none` means
`get_message()` returned `False`; `some msg` means it returned `True`
with `n1mm_monitor.message = msg`. -/
def n1mm_step (st : PState) (input : Option (List Char)) :
    PState × List LogEvent :=
  match input with
  | none => ({ st with n1mm_running := false }, [])
  | some msg =>
      if msg = timeoutSentinel then (st, [])
      else if qfull st.qso_queue then (st, [LogEvent.n1mmDropped])
      else ({ st with qso_queue := st.qso_queue ++ [msg] },
            [LogEvent.n1mmQueued])

/-- The `n1mm_thread` loop: iterate `n1mm_step` over a finite trace of
monitor results, re-checking the run flag before each iteration. -/
def n1mm_loop (st : PState) (inputs : List (Option (List Char))) :
    PState × List LogEvent :=
  match inputs with
  | [] => (st, [])
  | i :: rest =>
      if st.n1mm_running then
        let (st2, ev) := n1mm_step st i
        let (st3, evs) := n1mm_loop st2 rest
        (st3, ev ++ evs)
      else (st, [])

/-- Modelled from the spec: the external `wsjtxmon` module's last-received
message is a tagged tuple; `Message[0]` identifies the event kind and
`Message[2]` holds the raw ADIF payload for record-logged events.  Only
those two fields are consumed by this repository. -/
structure WsjtxMessage where
  tag : Nat
  content : List Char
  deriving DecidableEq, Repr

/-- Modelled from the spec: `wsjtxmon.MSG_ADIF_LOGGED`, the opaque tag of
a "record logged" event, represented by a fixed token; the listener only
compares tags for equality. -/
def MSG_ADIF_LOGGED : Nat := 12

/-- One iteration of the `wsjtx_thread` loop body (qrzrtlogger.py lines
147-158).  `none` means `get_message()` returned `False`; `some m` means
it returned `True` with `wsjtx_monitor.Message = m`. -/
def wsjtx_step (st : PState) (input : Option WsjtxMessage) :
    PState × List LogEvent :=
  match input with
  | none => ({ st with wsjtx_running := false }, [])
  | some m =>
      if m.tag = MSG_ADIF_LOGGED then
        let qso := format_record m.content
        if qfull st.qso_queue then (st, [LogEvent.wsjtxDropped])
        else ({ st with qso_queue := st.qso_queue ++ [qso] },
              [LogEvent.wsjtxQueued])
      else (st, [])

/-- The `wsjtx_thread` loop over a finite trace of monitor results. -/
def wsjtx_loop (st : PState) (inputs : List (Option WsjtxMessage)) :
    PState × List LogEvent :=
  match inputs with
  | [] => (st, [])
  | i :: rest =>
      if st.wsjtx_running then
        let (st2, ev) := wsjtx_step st i
        let (st3, evs) := wsjtx_loop st2 rest
        (st3, ev ++ evs)
      else (st, [])

/-! ## Main consumption loop -/

/-- What one iteration of the `__main__` consumption loop printed
(qrzrtlogger.py lines 225-238). -/
inductive MainEvent where
  | slept
  | dryrunPrinted (qso : List Char)
  | uploadSuccess (qso : List Char)
  | uploadFailure (qso : List Char) (info : List Char)
  deriving DecidableEq, Repr

/-- One iteration of the `__main__` consumption loop.  The uploader's
three-part result for the popped record is supplied as input (it is only
consulted on a non-dry-run upload).  Returns the queue left behind and
the operator-visible outcome. -/
def main_step (dryrun : Bool) (q : List (List Char))
    (upload_result : Int × Bool × List Char) :
    List (List Char) × MainEvent :=
  match try_dequeue q with
  | none => (q, MainEvent.slept)
  | some (qso, rest) =>
      if dryrun then (rest, MainEvent.dryrunPrinted qso)
      else
        let (upload_count, _status, info) := upload_result
        if upload_count = 1 then (rest, MainEvent.uploadSuccess qso)
        else (rest, MainEvent.uploadFailure qso info)

/-! ## Startup (`__main__` setup, qrzrtlogger.py lines 195-221) -/

/-- A configured source's endpoint settings. -/
structure SourceConfig where
  ip : List Char
  port : Nat
  timeout : Nat
  deriving DecidableEq, Repr

/-- The loaded YAML configuration document, restricted to the keys the
program reads.  `none` models an absent top-level key. -/
structure Config where
  qrz : Option (List Char × List Char)
  wsjtx : Option SourceConfig
  n1mm : Option SourceConfig
  deriving DecidableEq, Repr

/-- Externally observable startup actions, in program order. -/
inductive SetupEvent where
  | qrzLoggerConstructed
  | wsjtxMonitorConstructed
  | wsjtxBindError (msg : List Char)
  | wsjtxThreadStarted
  | n1mmMonitorConstructed
  | n1mmBindError (msg : List Char)
  | n1mmThreadStarted
  deriving DecidableEq, Repr

/-- How the startup sequence ends. -/
inductive SetupResult where
  /-- A `sys.exit(code)` call. -/
  | exited (code : Nat)
  /-- An uncaught `KeyError` on the named configuration key. -/
  | keyError (key : List Char)
  /-- Startup completed and the main loop was entered, with the recorded
  run-flag state. -/
  | enteredMain (wsjtx_running n1mm_running : Bool)
  deriving DecidableEq, Repr

/-- The `__main__` startup sequence after the YAML file is loaded
(qrzrtlogger.py lines 195-221): QRZ setup, then WSJT-X listener setup,
then N1MM+ listener setup.  The two monitors' bind results are supplied
as inputs `(status, err_msg)`. -/
def main_setup (config : Config) (wsjtx_bind n1mm_bind : Bool × List Char) :
    SetupResult × List SetupEvent :=
  match config.qrz with
  | none => (SetupResult.keyError ['q', 'r', 'z'], [])
  | some _qrz_config =>
      let ev0 := [SetupEvent.qrzLoggerConstructed]
      match config.wsjtx with
      | some _wsjtx_config =>
          let ev1 := ev0 ++ [SetupEvent.wsjtxMonitorConstructed]
          if wsjtx_bind.1 = false then
            (SetupResult.exited 1,
             ev1 ++ [SetupEvent.wsjtxBindError wsjtx_bind.2])
          else
            let ev2 := ev1 ++ [SetupEvent.wsjtxThreadStarted]
            match config.n1mm with
            | some _n1mm_config =>
                let ev3 := ev2 ++ [SetupEvent.n1mmMonitorConstructed]
                if n1mm_bind.1 = false then
                  (SetupResult.exited 1,
                   ev3 ++ [SetupEvent.n1mmBindError n1mm_bind.2])
                else
                  (SetupResult.enteredMain true true,
                   ev3 ++ [SetupEvent.n1mmThreadStarted])
            | none => (SetupResult.enteredMain true false, ev2)
      | none =>
          match config.n1mm with
          | some _n1mm_config =>
              let ev1 := ev0 ++ [SetupEvent.n1mmMonitorConstructed]
              if n1mm_bind.1 = false then
                (SetupResult.exited 1,
                 ev1 ++ [SetupEvent.n1mmBindError n1mm_bind.2])
              else
                (SetupResult.enteredMain false true,
                 ev1 ++ [SetupEvent.n1mmThreadStarted])
          | none => (SetupResult.enteredMain false false, ev0)

/-! ## Shutdown (`__main__` epilogue, qrzrtlogger.py lines 239-248) -/

/-- How the shutdown epilogue ends: a clean fall-off-the-end exit, or an
uncaught `NameError` on an undefined thread variable. -/
inductive ShutdownResult where
  | cleanExit
  | nameError (name : List Char)
  deriving DecidableEq, Repr

/-- Threads joined during shutdown, in order. -/
inductive ShutdownEvent where
  | joinedN1mm
  | joinedWsjtx
  deriving DecidableEq, Repr

/-- The `__main__` shutdown epilogue reached after `KeyboardInterrupt` or
any other exception is caught (qrzrtlogger.py lines 243-248): clear both
run flags, then evaluate `n1mmThread.join()` and `wsjtxThread.join()`.
The local variables `n1mmThread` / `wsjtxThread` exist only when the
corresponding source was configured at startup; evaluating an undefined
name raises `NameError`, which aborts the epilogue at that point. -/
def main_shutdown (wsjtx_configured n1mm_configured : Bool) (st : PState) :
    PState × ShutdownResult × List ShutdownEvent :=
  let st2 := { st with n1mm_running := false, wsjtx_running := false }
  if n1mm_configured then
    if wsjtx_configured then
      (st2, ShutdownResult.cleanExit,
       [ShutdownEvent.joinedN1mm, ShutdownEvent.joinedWsjtx])
    else
      (st2, ShutdownResult.nameError
        ['w', 's', 'j', 't', 'x', 'T', 'h', 'r', 'e', 'a', 'd'],
       [ShutdownEvent.joinedN1mm])
  else
    (st2, ShutdownResult.nameError
      ['n', '1', 'm', 'm', 'T', 'h', 'r', 'e', 'a', 'd'], [])

/-! ## Helper lemmas -/

/-- The source's two successive single-character `replace` calls (first LF,
then CR) equal the spec's single collapse pass. -/
theorem replace1_lf_cr_eq_collapse (s : List Char) :
    replace1 '\r' ' ' (replace1 '\n' ' ' s) = collapse_linebreaks s := by
  induction s with
  | nil => rfl
  | cons c t ih =>
      simp only [replace1, collapse_linebreaks, List.map_cons,
        List.cons.injEq] at ih ⊢
      refine ⟨?_, ih⟩
      by_cases h1 : c = '\n'
      · subst h1; decide
      · by_cases h2 : c = '\r'
        · subst h2; decide
        · simp [h1, h2]

/-- Every character of the collapse pass's output differs from LF and CR. -/
theorem collapse_linebreaks_no_linebreak (s : List Char) (c : Char)
    (hc : c ∈ collapse_linebreaks s) : c ≠ '\n' ∧ c ≠ '\r' := by
  simp only [collapse_linebreaks, List.mem_map] at hc
  obtain ⟨a, _, ha⟩ := hc
  by_cases h1 : a = '\n'
  · subst ha; simp [h1]
  · by_cases h2 : a = '\r'
    · subst ha; simp [h1, h2]
    · subst ha; simp [h1, h2]

/-- The strip step only removes characters. -/
theorem pystrip_subset (s : List Char) : pystrip s ⊆ s := by
  intro c hc
  simp only [pystrip, List.mem_reverse] at hc
  have h1 := (List.dropWhile_sublist (p := pyIsSpace)
    (l := (s.dropWhile pyIsSpace).reverse)).subset hc
  rw [List.mem_reverse] at h1
  exact (List.dropWhile_sublist (p := pyIsSpace) (l := s)).subset h1

/-- The normalizer only keeps characters of the collapse pass. -/
theorem format_record_subset_collapse (s : List Char) :
    format_record s ⊆ collapse_linebreaks (make_utf8 s) := by
  intro c hc
  simp only [format_record, replace1_lf_cr_eq_collapse] at hc
  rcases hfind : findEOHEnd (collapse_linebreaks (make_utf8 s)) with _ | idx
  · rw [hfind] at hc
    exact pystrip_subset _ hc
  · rw [hfind] at hc
    exact List.drop_subset _ _ (pystrip_subset _ hc)

/-! ## Claim theorems: record normalizer -/

/-- C5: for every input whose cleaned form contains a case-insensitive
`<EOH>` marker, `format_record` forces the payload to UTF-8, replaces every
line-feed and carriage-return with a single space, discards everything up
to and including the first case-insensitive marker occurrence, and trims
outer whitespace, in that order. -/
theorem format_record_after_marker (s : List Char) (idx : Nat)
    (h : findEOHEnd (collapse_linebreaks (make_utf8 s)) = some idx) :
    format_record s =
      pystrip ((collapse_linebreaks (make_utf8 s)).drop idx) := by
  simp only [format_record, replace1_lf_cr_eq_collapse, h]

/-- Concrete instantiation of `format_record_after_marker` on a payload
with an embedded LF, CR, and a mixed-case marker. -/
theorem format_record_after_marker_witness :
    findEOHEnd (collapse_linebreaks (make_utf8
      ['A', '\n', '<', 'e', 'O', 'h', '>', ' ', 'h', 'i', '\r'])) =
        some 7 ∧
    format_record ['A', '\n', '<', 'e', 'O', 'h', '>', ' ', 'h', 'i', '\r'] =
      pystrip ((collapse_linebreaks (make_utf8
        ['A', '\n', '<', 'e', 'O', 'h', '>', ' ', 'h', 'i', '\r'])).drop 7) :=
  ⟨by decide, format_record_after_marker _ 7 (by decide)⟩

/-- C6: for every input whose cleaned form contains no case-insensitive
`<EOH>` marker, `format_record` returns the input with each LF and CR
replaced by a space and outer whitespace trimmed, otherwise unchanged;
the absent marker is not an error. -/
theorem format_record_without_marker (s : List Char)
    (h : findEOHEnd (collapse_linebreaks (make_utf8 s)) = none) :
    format_record s = pystrip (collapse_linebreaks (make_utf8 s)) := by
  simp only [format_record, replace1_lf_cr_eq_collapse, h]

/-- Concrete instantiation of `format_record_without_marker`. -/
theorem format_record_without_marker_witness :
    findEOHEnd (collapse_linebreaks (make_utf8
      ['h', 'i', '\n', 'y', 'o', ' '])) = none ∧
    format_record ['h', 'i', '\n', 'y', 'o', ' '] =
      pystrip (collapse_linebreaks (make_utf8
        ['h', 'i', '\n', 'y', 'o', ' '])) :=
  ⟨by decide, format_record_without_marker _ (by decide)⟩

/-! ## Claim theorems: dispatch queue -/

/-- Guarded enqueues fill the queue up to capacity and silently reject the
rest: from a queue with spare capacity, running all of `xs` leaves the
queue holding its old contents followed by however many of `xs` fit. -/
theorem enqueueAll_eq_append_take (xs : List (List Char)) :
    ∀ q : List (List Char), q.length ≤ queue_maxsize →
      enqueueAll q xs = q ++ xs.take (queue_maxsize - q.length) := by
  induction xs with
  | nil => intro q _; simp [enqueueAll]
  | cons x t ih =>
      intro q hq
      simp only [enqueueAll, List.foldl_cons] at ih ⊢
      by_cases hf : qfull q
      · have hlen : q.length = queue_maxsize := by
          simp only [qfull, decide_eq_true_eq] at hf
          omega
        have h0 : queue_maxsize - q.length = 0 := by omega
        have hstep : (try_enqueue q x).1 = q := by
          simp [try_enqueue, hf]
        rw [hstep, h0, List.take_zero, List.append_nil]
        simpa [h0] using ih q hq
      · have hlt : q.length < queue_maxsize := by
          simp only [qfull, decide_eq_true_eq] at hf
          omega
        have hsucc : queue_maxsize - q.length =
            (queue_maxsize - (q ++ [x]).length) + 1 := by
          simp only [List.length_append, List.length_singleton]
          omega
        rw [hsucc, List.take_succ_cons]
        have hstep : (try_enqueue q x).1 = q ++ [x] := by
          simp [try_enqueue, hf]
        rw [hstep, ih (q ++ [x]) (by
          simp only [List.length_append, List.length_singleton]
          omega)]
        simp

/-- Draining `n` records yields the first `n` queue entries in order. -/
theorem drainQueue_eq_take (n : Nat) :
    ∀ q : List (List Char), drainQueue n q = q.take n := by
  induction n with
  | zero => intro q; simp [drainQueue]
  | succ m ih =>
      intro q
      cases q with
      | nil => simp [drainQueue, try_dequeue]
      | cons x rest => simp [drainQueue, try_dequeue, ih]

/-- A batch of 21 distinct one-character records. -/
def qsoBatch : List (List Char) :=
  ['A', 'B', 'C', 'D', 'E', 'F', 'G', 'H', 'I', 'J', 'K', 'L', 'M',
   'N', 'O', 'P', 'Q', 'R', 'S', 'T', 'U'].map (fun c => [c])

/-- C3: the dispatch queue has fixed capacity 20; enqueuing more than 20
records without a dequeue leaves exactly the first 20 in the queue, every
subsequent enqueue attempt fails without blocking and without changing the
queue contents (and the N1MM listener logs the drop), and dequeuing the 20
buffered records yields them in their original FIFO order. -/
theorem qso_queue_bounded_fifo (xs : List (List Char)) (b1 b2 : Bool)
    (msg y : List Char)
    (h : queue_maxsize < xs.length)
    (hmsg : msg ≠ timeoutSentinel) :
    enqueueAll [] xs = xs.take queue_maxsize ∧
    try_enqueue (enqueueAll [] xs) y = (enqueueAll [] xs, false) ∧
    drainQueue queue_maxsize (enqueueAll [] xs) = xs.take queue_maxsize ∧
    n1mm_step (PState.mk b1 b2 (enqueueAll [] xs)) (some msg) =
      (PState.mk b1 b2 (enqueueAll [] xs), [LogEvent.n1mmDropped]) := by
  have h1 : enqueueAll [] xs = xs.take queue_maxsize := by
    simpa using enqueueAll_eq_append_take xs [] (by simp)
  have hlen : (xs.take queue_maxsize).length = queue_maxsize := by
    rw [List.length_take]
    omega
  have hfull : qfull (xs.take queue_maxsize) = true := by
    simp [qfull, hlen]
  refine ⟨h1, ?_, ?_, ?_⟩
  · rw [h1]
    simp [try_enqueue, hfull]
  · rw [h1, drainQueue_eq_take, List.take_take]
    simp
  · rw [h1]
    simp [n1mm_step, hmsg, hfull]

/-- Concrete instantiation of `qso_queue_bounded_fifo` on a batch of 21
records: the 21st and any later record are dropped, the first 20 drain in
order. -/
theorem qso_queue_bounded_fifo_witness :
    (queue_maxsize < qsoBatch.length ∧ ['x'] ≠ timeoutSentinel) ∧
    (enqueueAll [] qsoBatch = qsoBatch.take queue_maxsize ∧
     try_enqueue (enqueueAll [] qsoBatch) ['y'] =
       (enqueueAll [] qsoBatch, false) ∧
     drainQueue queue_maxsize (enqueueAll [] qsoBatch) =
       qsoBatch.take queue_maxsize ∧
     n1mm_step (PState.mk true true (enqueueAll [] qsoBatch)) (some ['x']) =
       (PState.mk true true (enqueueAll [] qsoBatch),
        [LogEvent.n1mmDropped])) :=
  ⟨⟨by decide, by decide⟩,
   qso_queue_bounded_fifo qsoBatch true true ['x'] ['y']
     (by decide) (by decide)⟩

/-! ## Claim theorems: main loop upload classification -/

/-- C4: in a non-dry-run iteration of the main loop with a record
available, the upload result is classified as success exactly when
`delivered_count` equals 1; any other count is reported as a failure
carrying the provided `info` string, and the record is consumed without
being requeued either way. -/
theorem upload_classification (qso : List Char) (rest : List (List Char))
    (count : Int) (status : Bool) (info : List Char) :
    (main_step false (qso :: rest) (count, status, info) =
        (rest, MainEvent.uploadSuccess qso) ↔ count = 1) ∧
    (count ≠ 1 →
      main_step false (qso :: rest) (count, status, info) =
        (rest, MainEvent.uploadFailure qso info)) ∧
    (main_step false (qso :: rest) (count, status, info)).1 = rest := by
  by_cases hc : count = 1
  · subst hc
    simp [main_step, try_dequeue]
  · simp [main_step, try_dequeue, hc]

/-- Concrete instantiation of `upload_classification`: a delivered count
of 0 is a failure carrying the info text, and of 1 a success. -/
theorem upload_classification_witness :
    ((main_step false [['q']] ((0 : Int), false, ['b', 'a', 'd']) =
        ([], MainEvent.uploadSuccess ['q']) ↔ (0 : Int) = 1) ∧
     ((0 : Int) ≠ 1 →
       main_step false [['q']] ((0 : Int), false, ['b', 'a', 'd']) =
         ([], MainEvent.uploadFailure ['q'] ['b', 'a', 'd'])) ∧
     (main_step false [['q']] ((0 : Int), false, ['b', 'a', 'd'])).1 =
       []) ∧
    main_step false [['q']] ((1 : Int), true, []) =
      ([], MainEvent.uploadSuccess ['q']) :=
  ⟨upload_classification ['q'] [] 0 false ['b', 'a', 'd'], by decide⟩

/-! ## Claim theorems: listener failure semantics -/

/-- A listener whose run flag is already cleared does nothing. -/
theorem n1mm_loop_stopped (st : PState)
    (ins : List (Option (List Char))) (h : st.n1mm_running = false) :
    n1mm_loop st ins = (st, []) := by
  cases ins <;> simp [n1mm_loop, h]

/-- A listener whose run flag is already cleared does nothing. -/
theorem wsjtx_loop_stopped (st : PState)
    (ins : List (Option WsjtxMessage)) (h : st.wsjtx_running = false) :
    wsjtx_loop st ins = (st, []) := by
  cases ins <;> simp [wsjtx_loop, h]

/-- C7: when a listener's `get_message` returns false, that listener
clears its own run flag and exits its loop immediately (processing none of
the later monitor results); the other listener's run flag and the queue the
main loop consumes are left unchanged.  Stated for both the N1MM and the
WSJT-X listener. -/
theorem monitor_failure_terminates_only_that_listener
    (st1 st2 : PState)
    (ins1 : List (Option (List Char))) (ins2 : List (Option WsjtxMessage))
    (h1 : st1.n1mm_running = true) (h2 : st2.wsjtx_running = true) :
    (n1mm_loop st1 (none :: ins1) =
       ({ st1 with n1mm_running := false }, []) ∧
     (n1mm_loop st1 (none :: ins1)).1.wsjtx_running = st1.wsjtx_running ∧
     (n1mm_loop st1 (none :: ins1)).1.qso_queue = st1.qso_queue) ∧
    (wsjtx_loop st2 (none :: ins2) =
       ({ st2 with wsjtx_running := false }, []) ∧
     (wsjtx_loop st2 (none :: ins2)).1.n1mm_running = st2.n1mm_running ∧
     (wsjtx_loop st2 (none :: ins2)).1.qso_queue = st2.qso_queue) := by
  have e1 : n1mm_loop st1 (none :: ins1) =
      ({ st1 with n1mm_running := false }, []) := by
    simp only [n1mm_loop, h1, if_true, n1mm_step]
    rw [n1mm_loop_stopped _ ins1 (by rfl)]
    simp
  have e2 : wsjtx_loop st2 (none :: ins2) =
      ({ st2 with wsjtx_running := false }, []) := by
    simp only [wsjtx_loop, h2, if_true, wsjtx_step]
    rw [wsjtx_loop_stopped _ ins2 (by rfl)]
    simp
  exact ⟨⟨e1, by rw [e1], by rw [e1]⟩, e2, by rw [e2], by rw [e2]⟩

/-- Concrete instantiation of
`monitor_failure_terminates_only_that_listener`. -/
theorem monitor_failure_terminates_witness :
    ((PState.mk true true [['q']]).n1mm_running = true ∧
     (PState.mk false true []).wsjtx_running = true) ∧
    ((n1mm_loop (PState.mk true true [['q']]) [none, some ['z']] =
        (PState.mk false true [['q']], []) ∧
      (n1mm_loop (PState.mk true true [['q']])
          [none, some ['z']]).1.wsjtx_running =
        (PState.mk true true [['q']]).wsjtx_running ∧
      (n1mm_loop (PState.mk true true [['q']])
          [none, some ['z']]).1.qso_queue =
        (PState.mk true true [['q']]).qso_queue) ∧
     (wsjtx_loop (PState.mk false true []) [none] =
        (PState.mk false false [], []) ∧
      (wsjtx_loop (PState.mk false true []) [none]).1.n1mm_running =
        (PState.mk false true []).n1mm_running ∧
      (wsjtx_loop (PState.mk false true []) [none]).1.qso_queue =
        (PState.mk false true []).qso_queue)) := by
  constructor
  · exact ⟨rfl, rfl⟩
  · exact monitor_failure_terminates_only_that_listener
      (PState.mk true true [['q']]) (PState.mk false true [])
      [some ['z']] [] rfl rfl

/-- C9: an N1MM message is dropped exactly when its entire content equals
the literal string `timeout`; any other message, including one merely
containing that word, is enqueued verbatim (given spare queue capacity). -/
theorem n1mm_drops_exactly_timeout_sentinel (st : PState)
    (msg : List Char) (hq : qfull st.qso_queue = false) :
    (n1mm_step st (some msg) =
       (if msg = timeoutSentinel then (st, [])
        else ({ st with qso_queue := st.qso_queue ++ [msg] },
              [LogEvent.n1mmQueued]))) ∧
    ((n1mm_step st (some msg)).1.qso_queue = st.qso_queue ↔
       msg = timeoutSentinel) := by
  by_cases hm : msg = timeoutSentinel
  · subst hm
    simp [n1mm_step]
  · have hne : st.qso_queue ++ [msg] ≠ st.qso_queue := by
      intro hEq
      have := congrArg List.length hEq
      simp at this
    simp [n1mm_step, hm, hq, hne]

/-- Concrete instantiation of `n1mm_drops_exactly_timeout_sentinel` on the
message `timeout x`, which merely contains the sentinel word and is
enqueued verbatim. -/
theorem n1mm_timeout_sentinel_witness :
    qfull (PState.mk true true []).qso_queue = false ∧
    ((n1mm_step (PState.mk true true [])
        (some ['t', 'i', 'm', 'e', 'o', 'u', 't', ' ', 'x']) =
       (if ['t', 'i', 'm', 'e', 'o', 'u', 't', ' ', 'x'] = timeoutSentinel
        then (PState.mk true true [], [])
        else (PState.mk true true
                [['t', 'i', 'm', 'e', 'o', 'u', 't', ' ', 'x']],
              [LogEvent.n1mmQueued]))) ∧
     ((n1mm_step (PState.mk true true [])
          (some ['t', 'i', 'm', 'e', 'o', 'u', 't', ' ', 'x'])).1.qso_queue =
        (PState.mk true true []).qso_queue ↔
        ['t', 'i', 'm', 'e', 'o', 'u', 't', ' ', 'x'] = timeoutSentinel)) :=
  ⟨rfl, n1mm_drops_exactly_timeout_sentinel (PState.mk true true [])
     ['t', 'i', 'm', 'e', 'o', 'u', 't', ' ', 'x'] rfl⟩

/-! ## Claim theorems: startup -/

/-- C10: when the loaded configuration lacks the top-level `qrz` key, the
startup sequence terminates with an uncaught key-lookup failure before any
monitor is constructed, any endpoint is bound, or any listener thread is
started (the observable startup event trace is empty). -/
theorem missing_qrz_key_aborts_startup (config : Config)
    (wsjtx_bind n1mm_bind : Bool × List Char) (h : config.qrz = none) :
    main_setup config wsjtx_bind n1mm_bind =
      (SetupResult.keyError ['q', 'r', 'z'], []) := by
  obtain ⟨cq, cw, cn⟩ := config
  cases cq with
  | none => rfl
  | some v => simp at h

/-- Concrete instantiation of `missing_qrz_key_aborts_startup` on a
configuration holding both source sections but no `qrz` section. -/
theorem missing_qrz_key_aborts_startup_witness :
    (Config.mk none (some (SourceConfig.mk ['l', 'o'] 2237 5))
        (some (SourceConfig.mk ['l', 'o'] 12060 5))).qrz = none ∧
    main_setup
        (Config.mk none (some (SourceConfig.mk ['l', 'o'] 2237 5))
          (some (SourceConfig.mk ['l', 'o'] 12060 5)))
        (true, []) (true, []) =
      (SetupResult.keyError ['q', 'r', 'z'], []) :=
  ⟨rfl, missing_qrz_key_aborts_startup _ (true, []) (true, []) rfl⟩

/-- A complete configuration naming both sources, used as the concrete
counterexample input for the startup-order claim. -/
def cfgBoth : Config :=
  Config.mk (some (['A', 'B', '3', 'G', 'Y'], ['k', 'e', 'y']))
    (some (SourceConfig.mk ['l', 'o'] 2237 5))
    (some (SourceConfig.mk ['l', 'o'] 12060 5))

/-- C2 counterexample: with both sources configured, a successful WSJT-X
bind and a failing N1MM bind, the process does abort with exit status 1,
but the WSJT-X listener thread has already been started at that moment,
contradicting the claim that no listener thread has been started. -/
theorem n1mm_bind_failure_after_wsjtx_thread_start :
    (main_setup cfgBoth (true, []) (false, ['e'])).1 =
      SetupResult.exited 1 ∧
    SetupEvent.wsjtxThreadStarted ∈
      (main_setup cfgBoth (true, []) (false, ['e'])).2 := by
  decide

/-- C2 amended: a bind failure for a configured source is reported and
aborts the process with exit status 1 before that source's own listener
thread is started; when the failing source is WSJT-X (which is set up
first) no listener thread at all has been started, while a failing N1MM
bind leaves the already-started WSJT-X thread running. -/
theorem bind_failure_aborts_before_own_thread (config : Config)
    (wsjtx_bind n1mm_bind : Bool × List Char)
    (hq : config.qrz.isSome = true) :
    (config.wsjtx.isSome = true → wsjtx_bind.1 = false →
       (main_setup config wsjtx_bind n1mm_bind).1 = SetupResult.exited 1 ∧
       SetupEvent.wsjtxBindError wsjtx_bind.2 ∈
         (main_setup config wsjtx_bind n1mm_bind).2 ∧
       SetupEvent.wsjtxThreadStarted ∉
         (main_setup config wsjtx_bind n1mm_bind).2 ∧
       SetupEvent.n1mmThreadStarted ∉
         (main_setup config wsjtx_bind n1mm_bind).2) ∧
    (config.n1mm.isSome = true → n1mm_bind.1 = false →
     (config.wsjtx.isSome = true → wsjtx_bind.1 = true) →
       (main_setup config wsjtx_bind n1mm_bind).1 = SetupResult.exited 1 ∧
       SetupEvent.n1mmBindError n1mm_bind.2 ∈
         (main_setup config wsjtx_bind n1mm_bind).2 ∧
       SetupEvent.n1mmThreadStarted ∉
         (main_setup config wsjtx_bind n1mm_bind).2) := by
  obtain ⟨cq, cw, cn⟩ := config
  cases cq with
  | none => simp at hq
  | some qrz =>
      cases cw with
      | none =>
          cases cn with
          | none => simp
          | some nsc =>
              constructor
              · intro hw
                simp at hw
              · intro _ hn _
                simp [main_setup, hn]
      | some wsc =>
          cases cn with
          | none =>
              constructor
              · intro _ hw
                simp [main_setup, hw]
              · intro hn
                simp at hn
          | some nsc =>
              constructor
              · intro _ hw
                simp [main_setup, hw]
              · intro _ hn hwb
                have hw : wsjtx_bind.1 = true := hwb (by simp)
                simp [main_setup, hw, hn]

/-- Concrete instantiation of `bind_failure_aborts_before_own_thread`:
both sources configured, WSJT-X binds, N1MM bind fails. -/
theorem bind_failure_aborts_witness :
    (cfgBoth.qrz.isSome = true ∧ cfgBoth.n1mm.isSome = true ∧
     ((false, ['e', 'r', 'r']) : Bool × List Char).1 = false) ∧
    ((main_setup cfgBoth (true, []) (false, ['e', 'r', 'r'])).1 =
       SetupResult.exited 1 ∧
     SetupEvent.n1mmBindError ['e', 'r', 'r'] ∈
       (main_setup cfgBoth (true, []) (false, ['e', 'r', 'r'])).2 ∧
     SetupEvent.n1mmThreadStarted ∉
       (main_setup cfgBoth (true, []) (false, ['e', 'r', 'r'])).2) :=
  ⟨⟨rfl, rfl, rfl⟩,
   (bind_failure_aborts_before_own_thread cfgBoth (true, [])
      (false, ['e', 'r', 'r']) rfl).2 rfl rfl (fun _ => rfl)⟩

/-! ## Claim theorems: shutdown -/

/-- C1: after an interrupt or unexpected exception is caught, the shutdown
epilogue always clears both run flags first; but it then evaluates
`n1mmThread.join()` and `wsjtxThread.join()` unconditionally, so it exits
cleanly exactly when both sources were configured.  With only `wsjtx`
configured (`n1mmThread` never assigned) the epilogue raises `NameError`
on `n1mmThread` before joining the running WSJT-X listener thread, so the
process does not exit cleanly. -/
theorem shutdown_clean_exit_only_when_both_configured :
    (main_shutdown true false (PState.mk false true [])) =
      (PState.mk false false [],
       ShutdownResult.nameError
         ['n', '1', 'm', 'm', 'T', 'h', 'r', 'e', 'a', 'd'], []) ∧
    (main_shutdown false true (PState.mk true false [['q']])) =
      (PState.mk false false [['q']],
       ShutdownResult.nameError
         ['w', 's', 'j', 't', 'x', 'T', 'h', 'r', 'e', 'a', 'd'],
       [ShutdownEvent.joinedN1mm]) ∧
    (main_shutdown false false (PState.mk false false [])) =
      (PState.mk false false [],
       ShutdownResult.nameError
         ['n', '1', 'm', 'm', 'T', 'h', 'r', 'e', 'a', 'd'], []) ∧
    (main_shutdown true true (PState.mk true true [])) =
      (PState.mk false false [], ShutdownResult.cleanExit,
       [ShutdownEvent.joinedN1mm, ShutdownEvent.joinedWsjtx]) := by
  decide

/-! ## Claim theorems: record shape at the queue boundary -/

/-- The normalizer's output never contains a line feed or carriage
return: both are replaced by spaces before the marker search, and the
later drop/strip steps only remove characters. -/
theorem format_record_no_linebreak (s : List Char) :
    '\n' ∉ format_record s ∧ '\r' ∉ format_record s := by
  constructor
  · intro hmem
    exact (collapse_linebreaks_no_linebreak (make_utf8 s) _
      (format_record_subset_collapse s hmem)).1 rfl
  · intro hmem
    exact (collapse_linebreaks_no_linebreak (make_utf8 s) _
      (format_record_subset_collapse s hmem)).2 rfl

/-- C8 counterexample: the N1MM listener enqueues the raw message `a\nb`
verbatim, with its embedded line feed, and the WSJT-X listener enqueues
the record produced from the payload `<EOH>`, which is empty after
trimming — so queued records are neither always single-line nor always
non-empty. -/
theorem queued_records_not_always_single_line :
    ((n1mm_step (PState.mk true true [])
        (some ['a', '\n', 'b'])).1.qso_queue = [['a', '\n', 'b']] ∧
     '\n' ∈ ['a', '\n', 'b']) ∧
    (format_record ['<', 'E', 'O', 'H', '>'] = [] ∧
     (wsjtx_step (PState.mk true true [])
        (some (WsjtxMessage.mk MSG_ADIF_LOGGED
          ['<', 'E', 'O', 'H', '>']))).1.qso_queue = [[]]) := by
  decide

/-- C8 amended: every record the WSJT-X listener enqueues is the
`format_record` output for the event payload and contains no CR or LF
(though it may be empty after trimming); the N1MM listener enqueues the
raw monitor message verbatim, with no single-line or non-emptiness
guarantee. -/
theorem wsjtx_queued_records_single_line (st : PState) (m : WsjtxMessage)
    (htag : m.tag = MSG_ADIF_LOGGED) (hq : qfull st.qso_queue = false) :
    wsjtx_step st (some m) =
      ({ st with qso_queue := st.qso_queue ++ [format_record m.content] },
       [LogEvent.wsjtxQueued]) ∧
    '\n' ∉ format_record m.content ∧ '\r' ∉ format_record m.content := by
  refine ⟨?_, format_record_no_linebreak m.content⟩
  simp [wsjtx_step, htag, hq]

/-- Concrete instantiation of `wsjtx_queued_records_single_line` on a
payload with embedded LF and a header marker. -/
theorem wsjtx_queued_records_single_line_witness :
    ((WsjtxMessage.mk MSG_ADIF_LOGGED
        ['x', '\n', '<', 'e', 'o', 'h', '>', ' ', 'h', 'i']).tag =
       MSG_ADIF_LOGGED ∧
     qfull (PState.mk true true []).qso_queue = false) ∧
    (wsjtx_step (PState.mk true true [])
        (some (WsjtxMessage.mk MSG_ADIF_LOGGED
          ['x', '\n', '<', 'e', 'o', 'h', '>', ' ', 'h', 'i'])) =
       (PState.mk true true
          [format_record ['x', '\n', '<', 'e', 'o', 'h', '>', ' ', 'h', 'i']],
        [LogEvent.wsjtxQueued]) ∧
     '\n' ∉ format_record ['x', '\n', '<', 'e', 'o', 'h', '>', ' ', 'h', 'i'] ∧
     '\r' ∉ format_record
        ['x', '\n', '<', 'e', 'o', 'h', '>', ' ', 'h', 'i']) :=
  ⟨⟨rfl, rfl⟩,
   wsjtx_queued_records_single_line (PState.mk true true [])
     (WsjtxMessage.mk MSG_ADIF_LOGGED
       ['x', '\n', '<', 'e', 'o', 'h', '>', ' ', 'h', 'i']) rfl rfl⟩
